import Mathlib

/-!
Shallow embedding of the FragmentFusion dataset-acquisition engine
(`scripts/data_collection/ena/download_ena_cfdna.py` and
`scripts/data_collection/ncbi/download_ncbi_cfdna.py`), together with
theorems settling the frozen specification claims.

Modelling conventions:
* The local filesystem (the fastq output directory and everything the
  transfer executor touches) is an association list from path to file
  content; a file's size is the length of its content string.
* Remote HTTP calls plus the XML parsing performed inside the same
  `try` block are modelled as oracle functions returning
  `Except String payload`; the `.error` case covers timeouts,
  non-success HTTP statuses and parse failures alike, since the Python
  code catches them with one blanket `except` at the call site.
* Subprocess transports (`wget`, `fasterq-dump`, `md5sum`, `sha256sum`)
  are modelled as oracle functions describing the observable outcome of
  one invocation.  `wget --output-document` writes the destination
  document whenever the process runs to completion, so a completed
  invocation carries the resulting file content.
* Python truthiness on optional strings (`if file_info.get('checksum')`)
  treats both `None` and `""` as absent; `pyTruthy` reproduces this.
* Python truthiness on the optional `max_samples` / `max_runs` integers
  (`if max_samples:`) treats both `None` and `0` as absent; `pyTruncate`
  reproduces this.  (The claims only concern absent, zero and positive
  limits, so the limit is modelled as `Option Nat`.)
-/

namespace FragmentFusion

/-- The local filesystem: an association list from path to file content. -/
abbrev FS := List (String × String)

/-- Path lookup (`Path.exists` / reading the file). -/
def lookupFS (fs : FS) (p : String) : Option String :=
  (fs.find? (fun e => e.1 = p)).map (fun e => e.2)

/-- `unlink(missing_ok=True)`: remove a path if present. -/
def removeFS (fs : FS) (p : String) : FS :=
  fs.filter (fun e => ¬ (e.1 = p))

/-- Write (create or truncate-and-replace) a file at a path. -/
def writeFS (fs : FS) (p : String) (c : String) : FS :=
  (p, c) :: removeFS fs p

/-- Checksum algorithms the validator can compute (lines 325-328). -/
inductive Algo where
  | md5
  | sha256
deriving DecidableEq

/-- A digest oracle models running `md5sum` / `sha256sum` on a file with
the given content: `some d` is the printed digest, `none` covers a
non-zero exit status or an exception while invoking the tool
(lines 333-343, both of which make `_validate_file` return `True`). -/
abbrev Digest := Algo → String → Option String

/-- The slice of `download_settings` the engine reads. -/
structure DownloadConfig where
  validate_downloads : Bool
deriving DecidableEq

/-- File descriptor as built from the ENA run XML (lines 217-226).
`filetype`, `checksum` and `checksum_method` come from XML attributes
that may be absent. -/
structure FileInfo where
  filename : String
  filetype : Option String
  checksum : Option String
  checksum_method : Option String
deriving DecidableEq

/-- Python truthiness for an optional string: `None` and `""` are falsy. -/
def pyTruthy (v : Option String) : Option String :=
  match v with
  | none => none
  | some s => if s = "" then none else some s

/-- `checksum_method.lower()` (line 321), character by character; the
archive's method strings are ASCII, where Python `str.lower` and
`Char.toLower` agree. -/
def pyLower (s : String) : String :=
  String.mk (s.data.map Char.toLower)

/-- `ENACfDNADownloader._validate_file` (lines 298-345): configuration
gate, existence and size checks, then the checksum comparison, failing
open on a missing/unknown algorithm or an unusable checksum tool. -/
def validate_file (cfg : DownloadConfig) (digest : Digest) (fs : FS)
    (path : String) (fi : FileInfo) : Bool :=
  if ¬ cfg.validate_downloads then true
  else
    match lookupFS fs path with
    | none => false
    | some content =>
      if content.length = 0 then false
      else
        match pyTruthy fi.checksum, pyTruthy fi.checksum_method with
        | some expected, some method =>
          let m := pyLower method
          if m = "md5" then
            match digest .md5 content with
            | some actual => actual = expected
            | none => true
          else if m = "sha256" then
            match digest .sha256 content with
            | some actual => actual = expected
            | none => true
          else true
        | _, _ => true

/-- Observable outcome of one `wget` invocation (line 274).  A completed
process carries its exit status and the destination document it wrote
(`--output-document` creates the file whenever the process runs);
`timedOut` models `subprocess.TimeoutExpired` and `crashed` any other
exception, after both of which the caller unlinks the path. -/
inductive TransportOutcome where
  | completed (exitCode : Int) (content : String)
  | timedOut
  | crashed
deriving DecidableEq

/-- Result of one `download_fastq_file` call: the returned boolean, a
flag recording whether the already-valid early return fired (line 259),
how many transport subprocesses were spawned, and the filesystem after
the call. -/
structure TransferOutcome where
  success : Bool
  skipped : Bool
  transportCalls : Nat
  fs : FS
deriving DecidableEq

/-- Destination path: fastq directory joined with the filename (line 253). -/
def fastqPath (fastqDir filename : String) : String :=
  fastqDir ++ "/" ++ filename

/-- FTP locator: base, first six characters of the run accession, run
accession, filename (line 250). -/
def ftpUrl (base runAcc filename : String) : String :=
  base ++ "/" ++ runAcc.take 6 ++ "/" ++ runAcc ++ "/" ++ filename

/-- `ENACfDNADownloader.download_fastq_file` (lines 237-296): skip when
the destination already exists and validates; otherwise run `wget` once
and, on exit status 0, re-validate (deleting the artifact when
validation fails).  On a non-zero exit status the function only returns
`False` (lines 285-287) — the document `wget` left behind is not
removed.  On timeout or any other exception the path is unlinked. -/
def download_fastq_file (cfg : DownloadConfig) (digest : Digest)
    (transport : String → TransportOutcome) (fastqDir base : String)
    (fs : FS) (runAcc : String) (fi : FileInfo) : TransferOutcome :=
  let localPath := fastqPath fastqDir fi.filename
  if (lookupFS fs localPath).isSome ∧ validate_file cfg digest fs localPath fi then
    ⟨true, true, 0, fs⟩
  else
    match transport (ftpUrl base runAcc fi.filename) with
    | .completed code content =>
      let fs' := writeFS fs localPath content
      if code = 0 then
        if validate_file cfg digest fs' localPath fi then ⟨true, false, 1, fs'⟩
        else ⟨false, false, 1, removeFS fs' localPath⟩
      else ⟨false, false, 1, fs'⟩
    | .timedOut => ⟨false, false, 1, removeFS fs localPath⟩
    | .crashed => ⟨false, false, 1, removeFS fs localPath⟩

/-- Does a character-list start with the given pattern? -/
def charListStartsWith : List Char → List Char → Bool
  | _, [] => true
  | [], _ :: _ => false
  | c :: cs, p :: ps => c = p && charListStartsWith cs ps

/-- Does a character-list contain the given pattern as a contiguous block? -/
def charListHasSub (pat : List Char) : List Char → Bool
  | [] => pat.isEmpty
  | c :: cs => charListStartsWith (c :: cs) pat || charListHasSub pat cs

/-- Matching the glob `{acc}*.fastq*` (lines 330 and 351 of the NCBI
script): the name starts with the run accession and `.fastq` occurs
somewhere in the remainder. -/
def matchesFastqGlob (acc name : String) : Bool :=
  charListStartsWith name.toList acc.toList
    && charListHasSub ".fastq".toList (name.toList.drop acc.toList.length)

/-- `output_dir.glob(f"{run_accession}*.fastq*")` over the names present
in the fastq output directory. -/
def globFastq (names : List String) (acc : String) : List String :=
  names.filter (matchesFastqGlob acc)

/-- Observable outcome of one `fasterq-dump` invocation (line 347): the
completed process carries its exit status and the file names it emitted
into the output directory; `timedOut` and `crashed` model
`subprocess.TimeoutExpired` and any other exception (after which the
code does nothing to the directory). -/
inductive SraOutcome where
  | completed (exitCode : Int) (newFiles : List String)
  | timedOut
  | crashed
deriving DecidableEq

/-- Result of one `download_sra_run` call: the returned boolean, the
names in the output directory afterwards, and how many transport
subprocesses were spawned. -/
structure SraResult where
  success : Bool
  names : List String
  transportCalls : Nat
deriving DecidableEq

/-- `NCBICfDNADownloader.download_sra_run` (lines 314-367): skip when
the `{acc}*.fastq*` glob already matches; otherwise run `fasterq-dump`
once and succeed iff it exits 0 and the glob matches afterwards. -/
def download_sra_run (transport : String → SraOutcome)
    (names : List String) (acc : String) : SraResult :=
  if ¬ (globFastq names acc).isEmpty then ⟨true, names, 0⟩
  else
    match transport acc with
    | .completed code newFiles =>
      let names' := names ++ newFiles
      if code = 0 then
        if ¬ (globFastq names' acc).isEmpty then ⟨true, names', 1⟩
        else ⟨false, names', 1⟩
      else ⟨false, names', 1⟩
    | .timedOut => ⟨false, names, 1⟩
    | .crashed => ⟨false, names, 1⟩

/-- Sample record as built from the ENA project XML (lines 156-173). -/
structure SampleInfo where
  accession : String
  title : Option String
  description : Option String
  taxon_id : Option String
  attributes : List (String × String)
deriving DecidableEq

/-- Run record as built from the ENA sample XML (lines 203-228); only
the fields the downstream download loop reads are listed, the remaining
run attributes are plain data with no effect on control flow. -/
structure RunInfo where
  accession : String
  files : List FileInfo
deriving DecidableEq

/-- `ENACfDNADownloader.get_project_samples` (lines 134-180).  The HTTP
round trip and the XML-to-record extraction both live inside one `try`
block, so they are modelled together as an oracle producing either the
parsed sample list or an error; the blanket `except` turns every error
into an empty list. -/
def get_project_samples (fetchSamples : String → Except String (List SampleInfo))
    (projectAcc : String) : List SampleInfo :=
  match fetchSamples projectAcc with
  | .ok samples => samples
  | .error _ => []

/-- `ENACfDNADownloader.get_sample_runs` (lines 182-235), modelled the
same way: any error in the fetch-and-parse block yields an empty list. -/
def get_sample_runs (fetchRuns : String → Except String (List RunInfo))
    (sampleAcc : String) : List RunInfo :=
  match fetchRuns sampleAcc with
  | .ok runs => runs
  | .error _ => []

/-- One `<Item Name=...>` of an NCBI `esummary` DocSum: name and
(possibly absent) text. -/
abbrev NcbiItem := String × Option String

/-- Project record built by `_get_project_details` (lines 161-186).
String fields start as `''` and are overwritten with the raw item text
(which Python may set to `None`). -/
structure NcbiProjectInfo where
  id : String
  accession : Option String
  title : Option String
  description : Option String
  submission_date : Option String
  center_name : Option String
  sample_count : Int
deriving DecidableEq

/-- Initial project dictionary of `_get_project_details` (lines 161-169). -/
def initNcbiProject (pid : String) : NcbiProjectInfo :=
  ⟨pid, some "", some "", some "", some "", some "", 0⟩

/-- `int(value) if value else 0` (line 186): `None` and `""` are falsy
and give 0; a non-numeric string makes `int` raise, which the enclosing
`except` catches. -/
def pyInt (v : Option String) : Except String Int :=
  match v with
  | none => .ok 0
  | some s =>
    if s = "" then .ok 0
    else
      match s.toInt? with
      | some n => .ok n
      | none => .error "invalid literal for int"

/-- One step of the item loop of `_get_project_details` (lines 171-186). -/
def applyProjectItem (p : NcbiProjectInfo) (item : NcbiItem) : Except String NcbiProjectInfo :=
  match item.1 with
  | "Accession" => .ok { p with accession := item.2 }
  | "Title" => .ok { p with title := item.2 }
  | "Summary" => .ok { p with description := item.2 }
  | "SubmissionDate" => .ok { p with submission_date := item.2 }
  | "CenterName" => .ok { p with center_name := item.2 }
  | "SampleCount" =>
    match pyInt item.2 with
    | .ok n => .ok { p with sample_count := n }
    | .error e => .error e
  | _ => .ok p

/-- `NCBICfDNADownloader._get_project_details` (lines 134-192).  The
oracle returns the DocSum's item list (`.ok none` when the response has
no `DocSum` node, in which case the Python function falls off the end of
the `try` block and returns `None`); any fetch error, and any error
while folding the items (the `int` parse), is caught by the blanket
`except` and also yields `None`. -/
def get_project_details (fetchSummary : String → Except String (Option (List NcbiItem)))
    (pid : String) : Option NcbiProjectInfo :=
  match fetchSummary pid with
  | .error _ => none
  | .ok none => none
  | .ok (some items) =>
    match items.foldlM applyProjectItem (initNcbiProject pid) with
    | .ok p => some p
    | .error _ => none

/-- The pieces of `ENACfDNADownloader`'s state that the download loop
reads: configuration, the digest and transport oracles, the remote
fetch oracles, and the storage / FTP roots. -/
structure EnaEnv where
  cfg : DownloadConfig
  digest : Digest
  transport : String → TransportOutcome
  fetchSamples : String → Except String (List SampleInfo)
  fetchRuns : String → Except String (List RunInfo)
  fastqDir : String
  ftpBase : String

/-- The download summary dictionary of the ENA script (lines 366-374). -/
structure EnaSummary where
  project_accession : String
  total_samples : Nat
  downloaded_samples : Nat
  failed_samples : Nat
  downloaded_files : Nat
  failed_files : Nat
  errors : List String
deriving DecidableEq

/-- Initial ENA summary (lines 366-374), built after truncation, so
`total_samples` is the truncated length. -/
def initEnaSummary (projectAcc : String) (total : Nat) : EnaSummary :=
  ⟨projectAcc, total, 0, 0, 0, 0, []⟩

/-- State threaded through one sample's run/file loops (lines 395-411):
the filesystem, the file counters accumulated for this sample, the
`sample_success` flag, and the number of transport calls made. -/
structure SampleLoopSt where
  fs : FS
  downloadedFiles : Nat
  failedFiles : Nat
  sampleSuccess : Bool
  calls : Nat
deriving DecidableEq

/-- `filetype in ['fastq', 'fastq.gz']` (line 400); an absent attribute
is not in the list. -/
def isFastqType (ft : Option String) : Bool :=
  ft = some "fastq" || ft = some "fastq.gz"

/-- The body of the file loop for one eligible file (lines 401-411),
without the eligibility test. -/
def stepFile (env : EnaEnv) (st : SampleLoopSt) (p : String × FileInfo) : SampleLoopSt :=
  let r := download_fastq_file env.cfg env.digest env.transport env.fastqDir env.ftpBase
    st.fs p.1 p.2
  if r.success then
    ⟨r.fs, st.downloadedFiles + 1, st.failedFiles, st.sampleSuccess,
      st.calls + r.transportCalls⟩
  else
    ⟨r.fs, st.downloadedFiles, st.failedFiles + 1, false, st.calls + r.transportCalls⟩

/-- One iteration of the inner file loop (lines 399-411): only files of
fastq type are transferred. -/
def processFile (env : EnaEnv) (runAcc : String) (st : SampleLoopSt) (fi : FileInfo) :
    SampleLoopSt :=
  if isFastqType fi.filetype then stepFile env st (runAcc, fi) else st

/-- One iteration of the run loop (line 398). -/
def processRun (env : EnaEnv) (st : SampleLoopSt) (run : RunInfo) : SampleLoopSt :=
  run.files.foldl (processFile env run.accession) st

/-- The run/file loops of one sample (lines 395-411), starting from a
fresh `sample_success = True` and zero per-sample file counters. -/
def processSampleRuns (env : EnaEnv) (fs : FS) (runs : List RunInfo) : SampleLoopSt :=
  runs.foldl (processRun env) ⟨fs, 0, 0, true, 0⟩

/-- One iteration of the sample loop (lines 386-421): an empty run list
marks the sample failed and appends the only file-level error message
the ENA loop ever produces; otherwise the run/file loops execute and
the sample is classified by `sample_success`.  The `except` branch
(lines 418-421) is unreachable in this model because every operation in
the body catches its own errors. -/
def processSample (env : EnaEnv) (st : EnaSummary × FS) (sample : SampleInfo) :
    EnaSummary × FS :=
  let runs := get_sample_runs env.fetchRuns sample.accession
  if runs.isEmpty then
    ({ st.1 with
        failed_samples := st.1.failed_samples + 1,
        errors := st.1.errors ++ ["No runs found for sample " ++ sample.accession] },
      st.2)
  else
    let r := processSampleRuns env st.2 runs
    let s1 := { st.1 with
        downloaded_files := st.1.downloaded_files + r.downloadedFiles,
        failed_files := st.1.failed_files + r.failedFiles }
    if r.sampleSuccess then
      ({ s1 with downloaded_samples := s1.downloaded_samples + 1 }, r.fs)
    else
      ({ s1 with failed_samples := s1.failed_samples + 1 }, r.fs)

/-- The sample loop of `download_project_data` over an already-truncated
sample list (lines 366-421). -/
def ena_process_samples (env : EnaEnv) (projectAcc : String)
    (samples : List SampleInfo) (fs : FS) : EnaSummary × FS :=
  samples.foldl (processSample env) (initEnaSummary projectAcc samples.length, fs)

/-- `if max_samples: samples = samples[:max_samples]` (lines 363-364 of
the ENA script, lines 385-386 of the NCBI script): `None` and `0` are
falsy and leave the list untouched, a positive limit keeps the first
`n` elements. -/
def pyTruncate (l : List α) (m : Option Nat) : List α :=
  match m with
  | none => l
  | some n => if n = 0 then l else l.take n

/-- `ENACfDNADownloader.download_project_data` (lines 347-431): resolve
the sample list, truncate it, then run the sample loop.  Persisting the
metadata and summary JSON snapshots (lines 377-383 and 424-426) has no
effect on the summary and is not modelled. -/
def ena_download_project_data (env : EnaEnv) (projectAcc : String)
    (max_samples : Option Nat) (fs : FS) : EnaSummary × FS :=
  let samples := pyTruncate (get_project_samples env.fetchSamples projectAcc) max_samples
  ena_process_samples env projectAcc samples fs

/-- Specification-side replay of the sequence of per-file transfer
results for a list of (run accession, file) pairs, threading the
filesystem exactly as the nested loops do. -/
def fileOutcomes (env : EnaEnv) : FS → List (String × FileInfo) → List Bool
  | _, [] => []
  | fs, p :: rest =>
    let r := download_fastq_file env.cfg env.digest env.transport env.fastqDir env.ftpBase
      fs p.1 p.2
    r.success :: fileOutcomes env r.fs rest

/-- Filesystem after transferring a list of (run accession, file) pairs. -/
def fsAfter (env : EnaEnv) : FS → List (String × FileInfo) → FS
  | fs, [] => fs
  | fs, p :: rest =>
    let r := download_fastq_file env.cfg env.digest env.transport env.fastqDir env.ftpBase
      fs p.1 p.2
    fsAfter env r.fs rest

/-- The eligible (fastq-typed) files of a run list, each paired with its
run's accession, in loop order. -/
def eligFiles (runs : List RunInfo) : List (String × FileInfo) :=
  (runs.map (fun run =>
    (run.files.filter (fun fi => isFastqType fi.filetype)).map
      (fun fi => (run.accession, fi)))).flatten

/-- Run record built by `_get_run_details` (lines 269-308); the download
loop only ever reads `run['accession']` (line 411), the remaining
DocSum fields are plain data with no effect on control flow, so the
parsed record is modelled by its accession. -/
structure NcbiRun where
  accession : String
deriving DecidableEq

/-- `NCBICfDNADownloader._get_run_details` (lines 242-312), modelled
like `_get_project_details`: the oracle yields the parsed run
(`.ok none` when the response has no `DocSum` node) and every error is
caught, returning `None`. -/
def get_run_details (fetchRun : String → Except String (Option NcbiRun))
    (rid : String) : Option NcbiRun :=
  match fetchRun rid with
  | .error _ => none
  | .ok d => d

/-- `NCBICfDNADownloader.get_project_runs` (lines 194-240): one
`esearch` call produces a list of run ids (`.ok none` when the response
has no `IdList` node, line 223), then each id is resolved through
`_get_run_details`, keeping the non-`None` results; any error in the
outer block yields an empty list. -/
def get_project_runs (fetchIds : String → Except String (Option (List String)))
    (fetchRun : String → Except String (Option NcbiRun))
    (projectAcc : String) : List NcbiRun :=
  match fetchIds projectAcc with
  | .error _ => []
  | .ok none => []
  | .ok (some ids) => ids.filterMap (get_run_details fetchRun)

/-- The download summary dictionary of the NCBI script (lines 388-396). -/
structure NcbiSummary where
  project_accession : String
  total_runs : Nat
  downloaded_runs : Nat
  failed_runs : Nat
  downloaded_files : Nat
  failed_files : Nat
  errors : List String
deriving DecidableEq

/-- Initial NCBI summary (lines 388-396), built after truncation. -/
def initNcbiSummary (projectAcc : String) (total : Nat) : NcbiSummary :=
  ⟨projectAcc, total, 0, 0, 0, 0, []⟩

/-- One iteration of the `as_completed` aggregation loop
(lines 416-432), processing the result for one run accession.
`outcome acc` is the boolean `download_sra_run` returned for that run
and `fileCount acc` the size of the `{acc}*.fastq*` glob at aggregation
time (line 423).  The `except` branch (lines 429-432) is unreachable in
this model because `download_sra_run` catches its own errors. -/
def aggregateRun (outcome : String → Bool) (fileCount : String → Nat)
    (s : NcbiSummary) (acc : String) : NcbiSummary :=
  if outcome acc then
    { s with
        downloaded_runs := s.downloaded_runs + 1,
        downloaded_files := s.downloaded_files + fileCount acc }
  else
    { s with
        failed_runs := s.failed_runs + 1,
        errors := s.errors ++ ["Failed to download run " ++ acc] }

/-- The aggregation loop over the completion order of the futures. -/
def ncbi_aggregate (outcome : String → Bool) (fileCount : String → Nat)
    (init : NcbiSummary) (completed : List String) : NcbiSummary :=
  completed.foldl (aggregateRun outcome fileCount) init

/-- `NCBICfDNADownloader.download_project_data` (lines 369-442): resolve
the run list, truncate it, submit every run to the worker pool, then
fold the aggregation loop over the order in which the futures complete.
The workers share only the output directory, and distinct runs write
disjoint `{acc}*` file sets, so each run's result is a function
`outcome` of its accession; `completed` is the order `as_completed`
yields the futures, which is some permutation of the submitted run
accessions (each submitted future is yielded exactly once).  Theorems
carry that permutation fact as a hypothesis.  Persisting the metadata
and summary JSON snapshots is not modelled, as in the ENA path. -/
def ncbi_download_project_data (fetchIds : String → Except String (Option (List String)))
    (fetchRun : String → Except String (Option NcbiRun))
    (outcome : String → Bool) (fileCount : String → Nat)
    (projectAcc : String) (max_runs : Option Nat) (completed : List String) :
    NcbiSummary :=
  let runs := pyTruncate (get_project_runs fetchIds fetchRun projectAcc) max_runs
  ncbi_aggregate outcome fileCount (initNcbiSummary projectAcc runs.length) completed

/-- The run accessions submitted to the pool (lines 410-413), after
truncation. -/
def ncbi_submitted (fetchIds : String → Except String (Option (List String)))
    (fetchRun : String → Except String (Option NcbiRun))
    (projectAcc : String) (max_runs : Option Nat) : List String :=
  (pyTruncate (get_project_runs fetchIds fetchRun projectAcc) max_runs).map
    (fun run => run.accession)

theorem lookupFS_write (fs : FS) (p c : String) :
    lookupFS (writeFS fs p c) p = some c := by
  simp [lookupFS, writeFS]

theorem lookupFS_remove (fs : FS) (p : String) :
    lookupFS (removeFS fs p) p = none := by
  induction fs with
  | nil => rfl
  | cons e rest ih =>
    by_cases h : e.1 = p
    · simp [removeFS, lookupFS, h, ih]
    · simp [removeFS, lookupFS, h, ih]

/-- C2.  The Checksum Validator applies its rules in order: true when
validation is disabled by configuration (even for an absent file); false
when the file does not exist or has zero length; true when no checksum
or no algorithm is supplied; true when the algorithm is neither MD5 nor
SHA-256; otherwise true exactly when the computed digest equals the
expected checksum under exact string comparison. -/
theorem c2_validator_rules (cfg : DownloadConfig) (digest : Digest) (fs : FS)
    (path : String) (fi : FileInfo) :
    (cfg.validate_downloads = false → validate_file cfg digest fs path fi = true)
    ∧ (cfg.validate_downloads = true → lookupFS fs path = none →
        validate_file cfg digest fs path fi = false)
    ∧ (∀ c, cfg.validate_downloads = true → lookupFS fs path = some c →
        c.length = 0 → validate_file cfg digest fs path fi = false)
    ∧ (∀ c, cfg.validate_downloads = true → lookupFS fs path = some c →
        c.length ≠ 0 →
        (pyTruthy fi.checksum = none ∨ pyTruthy fi.checksum_method = none) →
        validate_file cfg digest fs path fi = true)
    ∧ (∀ c ck m, cfg.validate_downloads = true → lookupFS fs path = some c →
        c.length ≠ 0 → pyTruthy fi.checksum = some ck →
        pyTruthy fi.checksum_method = some m →
        pyLower m ≠ "md5" → pyLower m ≠ "sha256" →
        validate_file cfg digest fs path fi = true)
    ∧ (∀ c ck m d, cfg.validate_downloads = true → lookupFS fs path = some c →
        c.length ≠ 0 → pyTruthy fi.checksum = some ck →
        pyTruthy fi.checksum_method = some m →
        pyLower m = "md5" → digest .md5 c = some d →
        (validate_file cfg digest fs path fi = true ↔ d = ck))
    ∧ (∀ c ck m d, cfg.validate_downloads = true → lookupFS fs path = some c →
        c.length ≠ 0 → pyTruthy fi.checksum = some ck →
        pyTruthy fi.checksum_method = some m →
        pyLower m = "sha256" → digest .sha256 c = some d →
        (validate_file cfg digest fs path fi = true ↔ d = ck)) := by
  refine ⟨?_, ?_, ?_, ?_, ?_, ?_, ?_⟩
  · intro h
    simp [validate_file, h]
  · intro h hl
    simp [validate_file, h, hl]
  · intro c h hl hz
    simp [validate_file, h, hl, hz]
  · intro c h hl hz hmiss
    rcases hmiss with hm | hm <;> simp [validate_file, h, hl, hz, hm]
  · intro c ck m h hl hz hck hm hne1 hne2
    simp [validate_file, h, hl, hz, hck, hm, hne1, hne2]
  · intro c ck m d h hl hz hck hm hlow hd
    simp [validate_file, h, hl, hz, hck, hm, hlow, hd, eq_comm]
  · intro c ck m d h hl hz hck hm hlow hd
    by_cases hmd5 : pyLower m = "md5"
    · rw [hmd5] at hlow
      simp at hlow
    · simp [validate_file, h, hl, hz, hck, hm, hmd5, hlow, hd, eq_comm]

/-- Closed instances exercising every rule of `c2_validator_rules`. -/
theorem c2_validator_rules_witness :
    validate_file ⟨false⟩ (fun _ _ => none) [] "p" ⟨"f", none, none, none⟩ = true
    ∧ validate_file ⟨true⟩ (fun _ _ => none) [] "p" ⟨"f", none, none, none⟩ = false
    ∧ validate_file ⟨true⟩ (fun _ _ => none) [("p", "")] "p" ⟨"f", none, none, none⟩ = false
    ∧ validate_file ⟨true⟩ (fun _ _ => none) [("p", "x")] "p" ⟨"f", none, none, none⟩ = true
    ∧ validate_file ⟨true⟩ (fun _ _ => none) [("p", "x")] "p"
        ⟨"f", none, some "abc", some "crc32"⟩ = true
    ∧ validate_file ⟨true⟩ (fun _ c => some (toString c.length)) [("p", "x")] "p"
        ⟨"f", none, some "1", some "md5"⟩ = true
    ∧ validate_file ⟨true⟩ (fun _ c => some (toString c.length)) [("p", "xy")] "p"
        ⟨"f", none, some "9", some "SHA256"⟩ = false := by
  refine ⟨?_, ?_, ?_, ?_, ?_, ?_, ?_⟩
  · exact (c2_validator_rules ⟨false⟩ (fun _ _ => none) [] "p"
      ⟨"f", none, none, none⟩).1 rfl
  · exact (c2_validator_rules ⟨true⟩ (fun _ _ => none) [] "p"
      ⟨"f", none, none, none⟩).2.1 rfl rfl
  · exact (c2_validator_rules ⟨true⟩ (fun _ _ => none) [("p", "")] "p"
      ⟨"f", none, none, none⟩).2.2.1 "" rfl rfl rfl
  · exact (c2_validator_rules ⟨true⟩ (fun _ _ => none) [("p", "x")] "p"
      ⟨"f", none, none, none⟩).2.2.2.1 "x" rfl rfl (by decide) (Or.inl rfl)
  · exact (c2_validator_rules ⟨true⟩ (fun _ _ => none) [("p", "x")] "p"
      ⟨"f", none, some "abc", some "crc32"⟩).2.2.2.2.1 "x" "abc" "crc32" rfl rfl
      (by decide) rfl rfl (by decide) (by decide)
  · exact ((c2_validator_rules ⟨true⟩ (fun _ c => some (toString c.length)) [("p", "x")] "p"
      ⟨"f", none, some "1", some "md5"⟩).2.2.2.2.2.1 "x" "1" "md5" "1" rfl rfl
      (by decide) rfl rfl (by decide) rfl).mpr rfl
  · have h := (c2_validator_rules ⟨true⟩ (fun _ c => some (toString c.length)) [("p", "xy")] "p"
      ⟨"f", none, some "9", some "SHA256"⟩).2.2.2.2.2.2 "xy" "9" "SHA256" "2" rfl rfl
      (by decide) rfl rfl (by decide) rfl
    by_contra hfalse
    simp at hfalse
    exact absurd (h.mp hfalse) (by decide)

/-- C6.  Every remote call of a backend that fails is caught at the call
site and converted to an empty list (sample/run listing) or `none`
(single-entity resolution); no resolution or listing operation raises
past its boundary. -/
theorem c6_backend_error_boundary
    (fS : String → Except String (List SampleInfo))
    (fR : String → Except String (List RunInfo))
    (fP : String → Except String (Option (List NcbiItem)))
    (fI : String → Except String (Option (List String)))
    (fD : String → Except String (Option NcbiRun))
    (projAcc sampleAcc pid rid : String) (e1 e2 e3 e4 e5 : String)
    (h1 : fS projAcc = .error e1) (h2 : fR sampleAcc = .error e2)
    (h3 : fP pid = .error e3) (h4 : fI projAcc = .error e4)
    (h5 : fD rid = .error e5) :
    get_project_samples fS projAcc = []
    ∧ get_sample_runs fR sampleAcc = []
    ∧ get_project_details fP pid = none
    ∧ get_project_runs fI fD projAcc = []
    ∧ get_run_details fD rid = none := by
  refine ⟨?_, ?_, ?_, ?_, ?_⟩
  · simp [get_project_samples, h1]
  · simp [get_sample_runs, h2]
  · simp [get_project_details, h3]
  · simp [get_project_runs, h4]
  · simp [get_run_details, h5]

/-- Closed instance of `c6_backend_error_boundary` with every remote
call failing. -/
theorem c6_backend_error_boundary_witness :
    get_project_samples (fun _ => .error "timeout") "PRJ1" = []
    ∧ get_sample_runs (fun _ => .error "timeout") "S1" = []
    ∧ get_project_details (fun _ => .error "timeout") "42" = none
    ∧ get_project_runs (fun _ => .error "timeout") (fun _ => .error "timeout") "PRJ1" = []
    ∧ get_run_details (fun _ => .error "timeout") "77" = none :=
  c6_backend_error_boundary (fun _ => .error "timeout") (fun _ => .error "timeout")
    (fun _ => .error "timeout") (fun _ => .error "timeout") (fun _ => .error "timeout")
    "PRJ1" "S1" "42" "77" "timeout" "timeout" "timeout" "timeout" "timeout"
    rfl rfl rfl rfl rfl

/-- C1 fails on the code: a transport-reported failure (exit status 1)
leaves the partial destination document on disk while the transfer
reports failure. -/
theorem c1_counterexample :
    (download_fastq_file ⟨true⟩ (fun _ _ => none) (fun _ => .completed 1 "partialdata")
      "fastq" "ftp" [] "SRR000001" ⟨"f.fastq", some "fastq", none, none⟩).success = false
    ∧ lookupFS (download_fastq_file ⟨true⟩ (fun _ _ => none)
        (fun _ => .completed 1 "partialdata")
        "fastq" "ftp" [] "SRR000001" ⟨"f.fastq", some "fastq", none, none⟩).fs
      (fastqPath "fastq" "f.fastq") = some "partialdata" := by
  constructor
  · decide
  · decide

/-- C1 amended.  When a transfer is not skipped as already valid: on a
wall-clock timeout or a transport-layer exception the executor deletes
any partial artifact and reports the transfer failed; on a
transport-reported failure (non-zero exit status) it reports the
transfer failed but leaves the partial document on disk (available to a
later resumed transfer). -/
theorem c1_amended (cfg : DownloadConfig) (digest : Digest)
    (transport : String → TransportOutcome) (fastqDir base : String)
    (fs : FS) (runAcc : String) (fi : FileInfo)
    (hns : ¬ ((lookupFS fs (fastqPath fastqDir fi.filename)).isSome ∧
        validate_file cfg digest fs (fastqPath fastqDir fi.filename) fi)) :
    (transport (ftpUrl base runAcc fi.filename) = .timedOut →
      (download_fastq_file cfg digest transport fastqDir base fs runAcc fi).success = false
      ∧ lookupFS (download_fastq_file cfg digest transport fastqDir base fs runAcc fi).fs
          (fastqPath fastqDir fi.filename) = none)
    ∧ (transport (ftpUrl base runAcc fi.filename) = .crashed →
      (download_fastq_file cfg digest transport fastqDir base fs runAcc fi).success = false
      ∧ lookupFS (download_fastq_file cfg digest transport fastqDir base fs runAcc fi).fs
          (fastqPath fastqDir fi.filename) = none)
    ∧ (∀ code content, code ≠ 0 →
        transport (ftpUrl base runAcc fi.filename) = .completed code content →
        (download_fastq_file cfg digest transport fastqDir base fs runAcc fi).success = false
        ∧ lookupFS (download_fastq_file cfg digest transport fastqDir base fs runAcc fi).fs
            (fastqPath fastqDir fi.filename) = some content) := by
  refine ⟨?_, ?_, ?_⟩
  · intro ht
    simp [download_fastq_file, hns, ht, lookupFS_remove]
  · intro ht
    simp [download_fastq_file, hns, ht, lookupFS_remove]
  · intro code content hc ht
    simp [download_fastq_file, hns, ht, hc, lookupFS_write]

/-- Closed instance of `c1_amended`: a timed-out transfer of a file that
was not already valid reports failure and leaves no artifact. -/
theorem c1_amended_witness :
    (download_fastq_file ⟨true⟩ (fun _ _ => none) (fun _ => .timedOut)
      "fastq" "ftp" [] "SRR000001" ⟨"f.fastq", some "fastq", none, none⟩).success = false
    ∧ lookupFS (download_fastq_file ⟨true⟩ (fun _ _ => none) (fun _ => .timedOut)
        "fastq" "ftp" [] "SRR000001" ⟨"f.fastq", some "fastq", none, none⟩).fs
      (fastqPath "fastq" "f.fastq") = none :=
  (c1_amended ⟨true⟩ (fun _ _ => none) (fun _ => .timedOut) "fastq" "ftp" []
    "SRR000001" ⟨"f.fastq", some "fastq", none, none⟩ (by decide)).1 rfl

theorem download_fastq_file_skip (cfg : DownloadConfig) (digest : Digest)
    (transport : String → TransportOutcome) (fastqDir base : String)
    (fs : FS) (runAcc : String) (fi : FileInfo)
    (h : (lookupFS fs (fastqPath fastqDir fi.filename)).isSome ∧
      validate_file cfg digest fs (fastqPath fastqDir fi.filename) fi) :
    download_fastq_file cfg digest transport fastqDir base fs runAcc fi
      = ⟨true, true, 0, fs⟩ := by
  simp [download_fastq_file, h]

theorem download_fastq_file_success_valid (cfg : DownloadConfig) (digest : Digest)
    (transport : String → TransportOutcome) (fastqDir base : String)
    (fs : FS) (runAcc : String) (fi : FileInfo)
    (h1 : (download_fastq_file cfg digest transport fastqDir base fs runAcc fi).success
      = true) :
    (lookupFS (download_fastq_file cfg digest transport fastqDir base fs runAcc fi).fs
        (fastqPath fastqDir fi.filename)).isSome
    ∧ validate_file cfg digest
        (download_fastq_file cfg digest transport fastqDir base fs runAcc fi).fs
        (fastqPath fastqDir fi.filename) fi := by
  by_cases hskip : (lookupFS fs (fastqPath fastqDir fi.filename)).isSome ∧
      validate_file cfg digest fs (fastqPath fastqDir fi.filename) fi
  · rw [download_fastq_file_skip cfg digest transport fastqDir base fs runAcc fi hskip]
    exact hskip
  · cases htr : transport (ftpUrl base runAcc fi.filename) with
    | completed code content =>
      by_cases hc : code = 0
      · by_cases hv : validate_file cfg digest
            (writeFS fs (fastqPath fastqDir fi.filename) content)
            (fastqPath fastqDir fi.filename) fi = true
        · simp [download_fastq_file, hskip, htr, hc, hv, lookupFS_write]
        · simp [download_fastq_file, hskip, htr, hc, hv] at h1
      · simp [download_fastq_file, hskip, htr, hc] at h1
    | timedOut => simp [download_fastq_file, hskip, htr] at h1
    | crashed => simp [download_fastq_file, hskip, htr] at h1

theorem download_sra_run_skip (transport : String → SraOutcome)
    (names : List String) (acc : String)
    (h : ¬ (globFastq names acc).isEmpty) :
    download_sra_run transport names acc = ⟨true, names, 0⟩ := by
  simp [download_sra_run, h]

theorem download_sra_run_success_glob (transport : String → SraOutcome)
    (names : List String) (acc : String)
    (h1 : (download_sra_run transport names acc).success = true) :
    ¬ (globFastq (download_sra_run transport names acc).names acc).isEmpty := by
  by_cases hskip : (globFastq names acc).isEmpty
  · cases htr : transport acc with
    | completed code newFiles =>
      by_cases hc : code = 0
      · by_cases hg : (globFastq (names ++ newFiles) acc).isEmpty
        · simp [download_sra_run, hskip, htr, hc, hg] at h1
        · simp [download_sra_run, hskip, htr, hc, hg]
      · simp [download_sra_run, hskip, htr, hc] at h1
    | timedOut => simp [download_sra_run, hskip, htr] at h1
    | crashed => simp [download_sra_run, hskip, htr] at h1
  · rw [download_sra_run_skip transport names acc hskip]
    exact hskip

/-- C3.  Transfers are idempotent: a destination that already exists and
validates is skipped with zero transport activity and an unchanged
filesystem (ENA), and an already-matching output glob is skipped with
zero transport activity (NCBI); consequently re-running a transfer that
previously succeeded skips it and spawns no transport subprocess, for
either backend. -/
theorem c3_idempotent_transfer (cfg : DownloadConfig) (digest : Digest)
    (transport t2 : String → TransportOutcome) (fastqDir base : String)
    (fs : FS) (runAcc : String) (fi : FileInfo)
    (str st2 : String → SraOutcome) (names : List String) (acc : String)
    (h1 : (download_fastq_file cfg digest transport fastqDir base fs runAcc fi).success
      = true)
    (h2 : (download_sra_run str names acc).success = true) :
    ((lookupFS fs (fastqPath fastqDir fi.filename)).isSome ∧
        validate_file cfg digest fs (fastqPath fastqDir fi.filename) fi →
      download_fastq_file cfg digest transport fastqDir base fs runAcc fi
        = ⟨true, true, 0, fs⟩)
    ∧ download_fastq_file cfg digest t2 fastqDir base
        (download_fastq_file cfg digest transport fastqDir base fs runAcc fi).fs runAcc fi
      = ⟨true, true, 0,
          (download_fastq_file cfg digest transport fastqDir base fs runAcc fi).fs⟩
    ∧ (¬ (globFastq names acc).isEmpty →
      download_sra_run str names acc = ⟨true, names, 0⟩)
    ∧ download_sra_run st2 (download_sra_run str names acc).names acc
      = ⟨true, (download_sra_run str names acc).names, 0⟩ := by
  refine ⟨?_, ?_, ?_, ?_⟩
  · exact download_fastq_file_skip cfg digest transport fastqDir base fs runAcc fi
  · exact download_fastq_file_skip cfg digest t2 fastqDir base _ runAcc fi
      (download_fastq_file_success_valid cfg digest transport fastqDir base fs runAcc fi h1)
  · exact download_sra_run_skip str names acc
  · exact download_sra_run_skip st2 _ acc
      (download_sra_run_success_glob str names acc h2)

/-- Closed instance of `c3_idempotent_transfer`: after a successful
first transfer, the second invocation skips with zero transport calls
for both backends. -/
theorem c3_idempotent_transfer_witness :
    download_fastq_file ⟨false⟩ (fun _ _ => none) (fun _ => .crashed) "fastq" "ftp"
      (download_fastq_file ⟨false⟩ (fun _ _ => none) (fun _ => .completed 0 "data")
        "fastq" "ftp" [] "SRR000001" ⟨"f.fastq", some "fastq", none, none⟩).fs
      "SRR000001" ⟨"f.fastq", some "fastq", none, none⟩
      = ⟨true, true, 0,
          (download_fastq_file ⟨false⟩ (fun _ _ => none) (fun _ => .completed 0 "data")
            "fastq" "ftp" [] "SRR000001" ⟨"f.fastq", some "fastq", none, none⟩).fs⟩
    ∧ download_sra_run (fun _ => .crashed)
        (download_sra_run (fun _ => .completed 0 ["SRR9_1.fastq"]) [] "SRR9").names "SRR9"
      = ⟨true, (download_sra_run (fun _ => .completed 0 ["SRR9_1.fastq"]) [] "SRR9").names,
          0⟩ :=
  ⟨(c3_idempotent_transfer ⟨false⟩ (fun _ _ => none) (fun _ => .completed 0 "data")
      (fun _ => .crashed) "fastq" "ftp" [] "SRR000001"
      ⟨"f.fastq", some "fastq", none, none⟩
      (fun _ => .completed 0 ["SRR9_1.fastq"]) (fun _ => .crashed) [] "SRR9"
      (by decide) (by decide)).2.1,
   (c3_idempotent_transfer ⟨false⟩ (fun _ _ => none) (fun _ => .completed 0 "data")
      (fun _ => .crashed) "fastq" "ftp" [] "SRR000001"
      ⟨"f.fastq", some "fastq", none, none⟩
      (fun _ => .completed 0 ["SRR9_1.fastq"]) (fun _ => .crashed) [] "SRR9"
      (by decide) (by decide)).2.2.2⟩

/-- Specification-side classification of one sample (lines 386-416): it
counts as downloaded exactly when its run list is non-empty and every
eligible file transfer, replayed against the given filesystem, returns
success. -/
def sampleOk (env : EnaEnv) (fs : FS) (sampleAcc : String) : Bool :=
  let runs := get_sample_runs env.fetchRuns sampleAcc
  !runs.isEmpty && (fileOutcomes env fs (eligFiles runs)).all id

/-- Filesystem after one sample's transfers. -/
def sampleFsAfter (env : EnaEnv) (fs : FS) (sampleAcc : String) : FS :=
  let runs := get_sample_runs env.fetchRuns sampleAcc
  if runs.isEmpty then fs else fsAfter env fs (eligFiles runs)

/-- Specification-side classification of every sample of an
acquisition, threading the filesystem from sample to sample as the loop
does. -/
def sampleOutcomes (env : EnaEnv) : FS → List SampleInfo → List Bool
  | _, [] => []
  | fs, s :: rest =>
    sampleOk env fs s.accession ::
      sampleOutcomes env (sampleFsAfter env fs s.accession) rest

/-- The error messages the ENA sample loop produces: one per sample
whose run resolution returns an empty list (line 392), in loop order. -/
def noRunsErrors (env : EnaEnv) (samples : List SampleInfo) : List String :=
  (samples.filter (fun s => (get_sample_runs env.fetchRuns s.accession).isEmpty)).map
    (fun s => "No runs found for sample " ++ s.accession)

theorem stepFile_foldl (env : EnaEnv) (L : List (String × FileInfo)) :
    ∀ st : SampleLoopSt,
    (L.foldl (stepFile env) st).downloadedFiles
        = st.downloadedFiles + (fileOutcomes env st.fs L).count true
    ∧ (L.foldl (stepFile env) st).failedFiles
        = st.failedFiles + (fileOutcomes env st.fs L).count false
    ∧ (L.foldl (stepFile env) st).sampleSuccess
        = (st.sampleSuccess && (fileOutcomes env st.fs L).all id)
    ∧ (L.foldl (stepFile env) st).fs = fsAfter env st.fs L := by
  induction L with
  | nil =>
    intro st
    simp [fileOutcomes, fsAfter]
  | cons p rest ih =>
    intro st
    by_cases hr : (download_fastq_file env.cfg env.digest env.transport env.fastqDir
        env.ftpBase st.fs p.1 p.2).success = true
    · obtain ⟨ihd, ihf, ihs, ihfs⟩ := ih ⟨(download_fastq_file env.cfg env.digest
        env.transport env.fastqDir env.ftpBase st.fs p.1 p.2).fs,
        st.downloadedFiles + 1, st.failedFiles, st.sampleSuccess,
        st.calls + (download_fastq_file env.cfg env.digest env.transport env.fastqDir
          env.ftpBase st.fs p.1 p.2).transportCalls⟩
      have hst : stepFile env st p = ⟨(download_fastq_file env.cfg env.digest
          env.transport env.fastqDir env.ftpBase st.fs p.1 p.2).fs,
          st.downloadedFiles + 1, st.failedFiles, st.sampleSuccess,
          st.calls + (download_fastq_file env.cfg env.digest env.transport env.fastqDir
            env.ftpBase st.fs p.1 p.2).transportCalls⟩ := by
        simp [stepFile, hr]
      rw [List.foldl_cons, hst]
      refine ⟨?_, ?_, ?_, ?_⟩
      · rw [ihd]
        simp [fileOutcomes, hr, List.count_cons]
        omega
      · rw [ihf]
        simp [fileOutcomes, hr, List.count_cons]
      · rw [ihs]
        simp [fileOutcomes, hr]
      · rw [ihfs]
        simp [fsAfter]
    · obtain ⟨ihd, ihf, ihs, ihfs⟩ := ih ⟨(download_fastq_file env.cfg env.digest
        env.transport env.fastqDir env.ftpBase st.fs p.1 p.2).fs,
        st.downloadedFiles, st.failedFiles + 1, false,
        st.calls + (download_fastq_file env.cfg env.digest env.transport env.fastqDir
          env.ftpBase st.fs p.1 p.2).transportCalls⟩
      have hst : stepFile env st p = ⟨(download_fastq_file env.cfg env.digest
          env.transport env.fastqDir env.ftpBase st.fs p.1 p.2).fs,
          st.downloadedFiles, st.failedFiles + 1, false,
          st.calls + (download_fastq_file env.cfg env.digest env.transport env.fastqDir
            env.ftpBase st.fs p.1 p.2).transportCalls⟩ := by
        simp [stepFile, hr]
      rw [List.foldl_cons, hst]
      refine ⟨?_, ?_, ?_, ?_⟩
      · rw [ihd]
        simp [fileOutcomes, hr, List.count_cons]
      · rw [ihf]
        simp [fileOutcomes, hr, List.count_cons]
        omega
      · rw [ihs]
        simp [fileOutcomes, hr]
      · rw [ihfs]
        simp [fsAfter]

theorem processFile_foldl (env : EnaEnv) (runAcc : String) (files : List FileInfo) :
    ∀ st : SampleLoopSt,
    files.foldl (processFile env runAcc) st
      = ((files.filter (fun fi => isFastqType fi.filetype)).map
          (fun fi => (runAcc, fi))).foldl (stepFile env) st := by
  induction files with
  | nil => intro st; rfl
  | cons fi rest ih =>
    intro st
    by_cases h : isFastqType fi.filetype = true
    · simp [processFile, h, List.filter_cons, ih]
    · simp [processFile, h, List.filter_cons, ih]

theorem processRun_foldl (env : EnaEnv) (runs : List RunInfo) :
    ∀ st : SampleLoopSt,
    runs.foldl (processRun env) st = (eligFiles runs).foldl (stepFile env) st := by
  induction runs with
  | nil => intro st; rfl
  | cons run rest ih =>
    intro st
    rw [List.foldl_cons]
    have hcons : eligFiles (run :: rest)
        = (run.files.filter (fun fi => isFastqType fi.filetype)).map
            (fun fi => (run.accession, fi)) ++ eligFiles rest := by
      simp [eligFiles]
    rw [hcons, List.foldl_append, processRun, processFile_foldl env run.accession]
    exact ih _

theorem processSampleRuns_spec (env : EnaEnv) (fs : FS) (runs : List RunInfo) :
    (processSampleRuns env fs runs).downloadedFiles
        = (fileOutcomes env fs (eligFiles runs)).count true
    ∧ (processSampleRuns env fs runs).failedFiles
        = (fileOutcomes env fs (eligFiles runs)).count false
    ∧ (processSampleRuns env fs runs).sampleSuccess
        = (fileOutcomes env fs (eligFiles runs)).all id
    ∧ (processSampleRuns env fs runs).fs = fsAfter env fs (eligFiles runs) := by
  have h := stepFile_foldl env (eligFiles runs) ⟨fs, 0, 0, true, 0⟩
  rw [processSampleRuns, processRun_foldl]
  simpa using h

theorem processSample_step (env : EnaEnv) (s0 : EnaSummary) (fs : FS) (s : SampleInfo) :
    (processSample env (s0, fs) s).1.total_samples = s0.total_samples
    ∧ (processSample env (s0, fs) s).1.downloaded_samples
        = s0.downloaded_samples + (if sampleOk env fs s.accession then 1 else 0)
    ∧ (processSample env (s0, fs) s).1.failed_samples
        = s0.failed_samples + (if sampleOk env fs s.accession then 0 else 1)
    ∧ (processSample env (s0, fs) s).1.errors
        = s0.errors ++ (if (get_sample_runs env.fetchRuns s.accession).isEmpty then
            ["No runs found for sample " ++ s.accession] else [])
    ∧ (processSample env (s0, fs) s).2 = sampleFsAfter env fs s.accession := by
  by_cases hre : (get_sample_runs env.fetchRuns s.accession).isEmpty = true
  · have hok : sampleOk env fs s.accession = false := by
      simp [sampleOk, hre]
    simp [processSample, hre, hok, sampleFsAfter]
  · obtain ⟨hd, hf, hs, hfs⟩ := processSampleRuns_spec env fs
      (get_sample_runs env.fetchRuns s.accession)
    have hok : sampleOk env fs s.accession
        = (fileOutcomes env fs (eligFiles (get_sample_runs env.fetchRuns s.accession))).all id := by
      simp [sampleOk, hre]
    by_cases hsucc : (processSampleRuns env fs (get_sample_runs env.fetchRuns s.accession)).sampleSuccess = true
    · have hokt : sampleOk env fs s.accession = true := by
        rw [hok, ← hs, hsucc]
      simp [processSample, hre, hsucc, hokt, sampleFsAfter, hfs]
    · have hokf : sampleOk env fs s.accession = false := by
        rw [hok, ← hs]
        simpa using hsucc
      simp [processSample, hre, hsucc, hokf, sampleFsAfter, hfs]

theorem processSample_foldl (env : EnaEnv) (samples : List SampleInfo) :
    ∀ (s0 : EnaSummary) (fs : FS),
    (samples.foldl (processSample env) (s0, fs)).1.total_samples = s0.total_samples
    ∧ (samples.foldl (processSample env) (s0, fs)).1.downloaded_samples
        = s0.downloaded_samples + (sampleOutcomes env fs samples).count true
    ∧ (samples.foldl (processSample env) (s0, fs)).1.failed_samples
        = s0.failed_samples + (sampleOutcomes env fs samples).count false
    ∧ (samples.foldl (processSample env) (s0, fs)).1.errors
        = s0.errors ++ noRunsErrors env samples := by
  induction samples with
  | nil =>
    intro s0 fs
    simp [sampleOutcomes, noRunsErrors]
  | cons s rest ih =>
    intro s0 fs
    obtain ⟨h1, h2, h3, h4, h5⟩ := processSample_step env s0 fs s
    obtain ⟨ih1, ih2, ih3, ih4⟩ := ih (processSample env (s0, fs) s).1
      (processSample env (s0, fs) s).2
    have hfold : (s :: rest).foldl (processSample env) (s0, fs)
        = rest.foldl (processSample env)
            ((processSample env (s0, fs) s).1, (processSample env (s0, fs) s).2) := by
      rw [List.foldl_cons]
    rw [hfold]
    refine ⟨?_, ?_, ?_, ?_⟩
    · rw [ih1, h1]
    · rw [ih2, h2, h5]
      by_cases hok : sampleOk env fs s.accession = true
      · simp [sampleOutcomes, hok, List.count_cons]
        omega
      · simp only [Bool.not_eq_true] at hok
        simp [sampleOutcomes, hok, List.count_cons]
    · rw [ih3, h3, h5]
      by_cases hok : sampleOk env fs s.accession = true
      · simp [sampleOutcomes, hok, List.count_cons]
      · simp only [Bool.not_eq_true] at hok
        simp [sampleOutcomes, hok, List.count_cons]
        omega
    · rw [ih4, h4]
      by_cases hre : (get_sample_runs env.fetchRuns s.accession).isEmpty = true
      · simp [noRunsErrors, List.filter_cons, hre]
      · simp only [Bool.not_eq_true] at hre
        simp [noRunsErrors, List.filter_cons, hre]

theorem sampleOutcomes_length (env : EnaEnv) (samples : List SampleInfo) :
    ∀ fs : FS, (sampleOutcomes env fs samples).length = samples.length := by
  induction samples with
  | nil => intro fs; rfl
  | cons s rest ih =>
    intro fs
    simp [sampleOutcomes, ih]

theorem boolCount (l : List Bool) : l.count true + l.count false = l.length := by
  induction l with
  | nil => rfl
  | cons b rest ih =>
    cases b <;> simp [List.count_cons] <;> omega

theorem ncbi_aggregate_spec (outcome : String → Bool) (fileCount : String → Nat)
    (completed : List String) : ∀ s0 : NcbiSummary,
    (ncbi_aggregate outcome fileCount s0 completed).total_runs = s0.total_runs
    ∧ (ncbi_aggregate outcome fileCount s0 completed).downloaded_runs
        = s0.downloaded_runs + completed.countP outcome
    ∧ (ncbi_aggregate outcome fileCount s0 completed).failed_runs
        = s0.failed_runs + completed.countP (fun a => !(outcome a))
    ∧ (ncbi_aggregate outcome fileCount s0 completed).errors
        = s0.errors ++ (completed.filter (fun a => !(outcome a))).map
            (fun a => "Failed to download run " ++ a) := by
  induction completed with
  | nil =>
    intro s0
    simp [ncbi_aggregate]
  | cons a rest ih =>
    intro s0
    obtain ⟨ih1, ih2, ih3, ih4⟩ := ih (aggregateRun outcome fileCount s0 a)
    have hfold : ncbi_aggregate outcome fileCount s0 (a :: rest)
        = ncbi_aggregate outcome fileCount (aggregateRun outcome fileCount s0 a) rest := by
      rfl
    rw [hfold]
    by_cases ho : outcome a = true
    · refine ⟨?_, ?_, ?_, ?_⟩
      · rw [ih1]; simp [aggregateRun, ho]
      · rw [ih2]
        simp [aggregateRun, ho, List.countP_cons]
        omega
      · rw [ih3]
        simp [aggregateRun, ho, List.countP_cons]
      · rw [ih4]
        simp [aggregateRun, ho, List.filter_cons]
    · simp only [Bool.not_eq_true] at ho
      refine ⟨?_, ?_, ?_, ?_⟩
      · rw [ih1]; simp [aggregateRun, ho]
      · rw [ih2]
        simp [aggregateRun, ho, List.countP_cons]
      · rw [ih3]
        simp [aggregateRun, ho, List.countP_cons]
        omega
      · rw [ih4]
        simp [aggregateRun, ho, List.filter_cons]

/-- C4 fails on the code: a sample whose run resolution returns an empty
list is counted failed even though it has no eligible files at all (no
file of it failed — `failed_files` stays 0). -/
theorem c4_counterexample :
    (ena_download_project_data
      ⟨⟨true⟩, fun _ _ => none, fun _ => .completed 0 "data",
        fun _ => .ok [⟨"S1", none, none, none, []⟩], fun _ => .ok [], "fastq", "ftp"⟩
      "PRJ1" none []).1.failed_samples = 1
    ∧ (ena_download_project_data
      ⟨⟨true⟩, fun _ _ => none, fun _ => .completed 0 "data",
        fun _ => .ok [⟨"S1", none, none, none, []⟩], fun _ => .ok [], "fastq", "ftp"⟩
      "PRJ1" none []).1.downloaded_samples = 0
    ∧ (ena_download_project_data
      ⟨⟨true⟩, fun _ _ => none, fun _ => .completed 0 "data",
        fun _ => .ok [⟨"S1", none, none, none, []⟩], fun _ => .ok [], "fastq", "ftp"⟩
      "PRJ1" none []).1.failed_files = 0 := by
  refine ⟨?_, ?_, ?_⟩ <;> decide

/-- C4 amended.  A sample is counted succeeded exactly when its resolved
run list is non-empty and every eligible file belonging to it succeeded
or was skipped-as-already-valid (replayed against the filesystem state
current when the sample is processed); a sample with an empty run list
is counted failed.  Each sample contributes exactly one count determined
only by its own runs and the current filesystem, so one sample's file
failure does not prevent the remaining samples' transfers from being
attempted and counted. -/
theorem c4_amended (env : EnaEnv) (projectAcc : String)
    (samples : List SampleInfo) (fs : FS) :
    ((ena_process_samples env projectAcc samples fs).1.downloaded_samples
        = (sampleOutcomes env fs samples).count true)
    ∧ ((ena_process_samples env projectAcc samples fs).1.failed_samples
        = (sampleOutcomes env fs samples).count false)
    ∧ (∀ (s0 : EnaSummary) (fs1 : FS) (s : SampleInfo),
        (processSample env (s0, fs1) s).1.downloaded_samples
            = s0.downloaded_samples + (if sampleOk env fs1 s.accession then 1 else 0)
        ∧ (processSample env (s0, fs1) s).1.failed_samples
            = s0.failed_samples + (if sampleOk env fs1 s.accession then 0 else 1)) := by
  obtain ⟨h1, h2, h3, h4⟩ := processSample_foldl env samples
    (initEnaSummary projectAcc samples.length) fs
  refine ⟨?_, ?_, ?_⟩
  · rw [ena_process_samples, h2]
    simp [initEnaSummary]
  · rw [ena_process_samples, h3]
    simp [initEnaSummary]
  · intro s0 fs1 s
    obtain ⟨g1, g2, g3, g4, g5⟩ := processSample_step env s0 fs1 s
    exact ⟨g2, g3⟩

/-- C5 fails on the code: in the ENA path a failed file transfer counts
into `failed_files` (and fails its sample) without appending any entry
to the summary's error list. -/
theorem c5_counterexample :
    (ena_download_project_data
      ⟨⟨true⟩, fun _ _ => none, fun _ => .completed 1 "partialdata",
        fun _ => .ok [⟨"S1", none, none, none, []⟩],
        fun _ => .ok [⟨"RUN1", [⟨"f.fastq", some "fastq", none, none⟩]⟩], "fastq", "ftp"⟩
      "PRJ1" none []).1.failed_files = 1
    ∧ (ena_download_project_data
      ⟨⟨true⟩, fun _ _ => none, fun _ => .completed 1 "partialdata",
        fun _ => .ok [⟨"S1", none, none, none, []⟩],
        fun _ => .ok [⟨"RUN1", [⟨"f.fastq", some "fastq", none, none⟩]⟩], "fastq", "ftp"⟩
      "PRJ1" none []).1.failed_samples = 1
    ∧ (ena_download_project_data
      ⟨⟨true⟩, fun _ _ => none, fun _ => .completed 1 "partialdata",
        fun _ => .ok [⟨"S1", none, none, none, []⟩],
        fun _ => .ok [⟨"RUN1", [⟨"f.fastq", some "fastq", none, none⟩]⟩], "fastq", "ftp"⟩
      "PRJ1" none []).1.errors = [] := by
  refine ⟨?_, ?_, ?_⟩ <;> decide

/-- C5 amended.  Errors are append-only and captured in the summary
rather than raised, but not every counted failure contributes an entry:
in the ENA path exactly the samples whose run resolution returns no
runs append one error each (failed file transfers and the samples they
fail append none), while in the NCBI path every failed run appends
exactly one error, so there the error-list length equals `failed_runs`. -/
theorem c5_amended (env : EnaEnv) (projectAcc : String) (m : Option Nat) (fs0 : FS)
    (fetchIds : String → Except String (Option (List String)))
    (fetchRun : String → Except String (Option NcbiRun))
    (outcome : String → Bool) (fileCount : String → Nat)
    (nProject : String) (nMax : Option Nat) (completed : List String) :
    (∀ (s0 : EnaSummary) (fs : FS) (samples : List SampleInfo),
      (samples.foldl (processSample env) (s0, fs)).1.errors
        = s0.errors ++ noRunsErrors env samples)
    ∧ (ena_download_project_data env projectAcc m fs0).1.errors
        = noRunsErrors env (pyTruncate (get_project_samples env.fetchSamples projectAcc) m)
    ∧ (∀ s0 : NcbiSummary,
      (ncbi_aggregate outcome fileCount s0 completed).errors
        = s0.errors ++ (completed.filter (fun a => !(outcome a))).map
            (fun a => "Failed to download run " ++ a))
    ∧ (ncbi_download_project_data fetchIds fetchRun outcome fileCount nProject nMax
        completed).errors.length
      = (ncbi_download_project_data fetchIds fetchRun outcome fileCount nProject nMax
          completed).failed_runs := by
  refine ⟨?_, ?_, ?_, ?_⟩
  · intro s0 fs samples
    exact (processSample_foldl env samples s0 fs).2.2.2
  · rw [ena_download_project_data, ena_process_samples]
    rw [(processSample_foldl env _ _ _).2.2.2]
    simp [initEnaSummary]
  · intro s0
    exact (ncbi_aggregate_spec outcome fileCount completed s0).2.2.2
  · rw [ncbi_download_project_data]
    obtain ⟨g1, g2, g3, g4⟩ := ncbi_aggregate_spec outcome fileCount completed
      (initNcbiSummary nProject (pyTruncate (get_project_runs fetchIds fetchRun nProject)
        nMax).length)
    rw [g3, g4]
    simp [initNcbiSummary, List.countP_eq_length_filter]

theorem countP_split (p : α → Bool) (l : List α) :
    l.countP p + l.countP (fun a => !(p a)) = l.length := by
  induction l with
  | nil => rfl
  | cons a rest ih =>
    by_cases h : p a = true <;> simp [List.countP_cons, h] <;> omega

/-- C7.  A positive `maxUnits` truncates the resolved unit list to its
first `maxUnits` elements in backend-returned order before any transfer
is scheduled, and the summary's total count equals the truncated
length, in both the ENA (samples) and NCBI (runs) paths. -/
theorem c7_truncation (env : EnaEnv) (projectAcc : String) (fs : FS) (k : Nat)
    (fetchIds : String → Except String (Option (List String)))
    (fetchRun : String → Except String (Option NcbiRun))
    (outcome : String → Bool) (fileCount : String → Nat)
    (nProject : String) (completed : List String)
    (hk : k ≠ 0) :
    ena_download_project_data env projectAcc (some k) fs
      = ena_process_samples env projectAcc
          ((get_project_samples env.fetchSamples projectAcc).take k) fs
    ∧ (ena_download_project_data env projectAcc (some k) fs).1.total_samples
      = min k (get_project_samples env.fetchSamples projectAcc).length
    ∧ pyTruncate (get_project_runs fetchIds fetchRun nProject) (some k)
      = (get_project_runs fetchIds fetchRun nProject).take k
    ∧ (ncbi_download_project_data fetchIds fetchRun outcome fileCount nProject
        (some k) completed).total_runs
      = min k (get_project_runs fetchIds fetchRun nProject).length := by
  have htr : ∀ (α : Type) (l : List α), pyTruncate l (some k) = l.take k := by
    intro α l
    simp [pyTruncate, hk]
  refine ⟨?_, ?_, ?_, ?_⟩
  · rw [ena_download_project_data, htr]
  · rw [ena_download_project_data, htr, ena_process_samples]
    rw [(processSample_foldl env _ _ _).1]
    simp [initEnaSummary]
  · exact htr _ _
  · rw [ncbi_download_project_data, htr]
    rw [(ncbi_aggregate_spec outcome fileCount completed _).1]
    simp [initNcbiSummary]

/-- Closed instance of `c7_truncation`: `maxUnits = 3` against ten
resolved samples reports `total_samples = 3`. -/
theorem c7_truncation_witness :
    (ena_download_project_data
      ⟨⟨true⟩, fun _ _ => none, fun _ => .completed 0 "data",
        fun _ => .ok [⟨"S1", none, none, none, []⟩, ⟨"S2", none, none, none, []⟩,
          ⟨"S3", none, none, none, []⟩, ⟨"S4", none, none, none, []⟩,
          ⟨"S5", none, none, none, []⟩, ⟨"S6", none, none, none, []⟩,
          ⟨"S7", none, none, none, []⟩, ⟨"S8", none, none, none, []⟩,
          ⟨"S9", none, none, none, []⟩, ⟨"S10", none, none, none, []⟩],
        fun _ => .ok [], "fastq", "ftp"⟩
      "PRJ1" (some 3) []).1.total_samples = 3 :=
  ((c7_truncation
      ⟨⟨true⟩, fun _ _ => none, fun _ => .completed 0 "data",
        fun _ => .ok [⟨"S1", none, none, none, []⟩, ⟨"S2", none, none, none, []⟩,
          ⟨"S3", none, none, none, []⟩, ⟨"S4", none, none, none, []⟩,
          ⟨"S5", none, none, none, []⟩, ⟨"S6", none, none, none, []⟩,
          ⟨"S7", none, none, none, []⟩, ⟨"S8", none, none, none, []⟩,
          ⟨"S9", none, none, none, []⟩, ⟨"S10", none, none, none, []⟩],
        fun _ => .ok [], "fastq", "ftp"⟩
      "PRJ1" [] 3 (fun _ => .error "x") (fun _ => .error "x") (fun _ => true)
      (fun _ => 0) "P" [] (by decide)).2.1).trans (by decide)

/-- C8.  Summary aggregation is insensitive to the order in which the
worker pool's futures complete: for any completion order (a permutation
of the submitted run accessions) the summary counts exactly the
succeeding and the failing units, and the error list carries exactly
one entry per failure (none lost), up to completion order. -/
theorem c8_aggregation_order_independent
    (fetchIds : String → Except String (Option (List String)))
    (fetchRun : String → Except String (Option NcbiRun))
    (outcome : String → Bool) (fileCount : String → Nat)
    (projectAcc : String) (max_runs : Option Nat) (completed : List String)
    (hperm : completed.Perm (ncbi_submitted fetchIds fetchRun projectAcc max_runs)) :
    (ncbi_download_project_data fetchIds fetchRun outcome fileCount projectAcc
        max_runs completed).downloaded_runs
      = (ncbi_submitted fetchIds fetchRun projectAcc max_runs).countP outcome
    ∧ (ncbi_download_project_data fetchIds fetchRun outcome fileCount projectAcc
        max_runs completed).failed_runs
      = (ncbi_submitted fetchIds fetchRun projectAcc max_runs).countP
          (fun a => !(outcome a))
    ∧ (ncbi_download_project_data fetchIds fetchRun outcome fileCount projectAcc
        max_runs completed).errors.length
      = (ncbi_download_project_data fetchIds fetchRun outcome fileCount projectAcc
          max_runs completed).failed_runs
    ∧ (ncbi_download_project_data fetchIds fetchRun outcome fileCount projectAcc
        max_runs completed).errors.Perm
        (((ncbi_submitted fetchIds fetchRun projectAcc max_runs).filter
          (fun a => !(outcome a))).map (fun a => "Failed to download run " ++ a)) := by
  obtain ⟨g1, g2, g3, g4⟩ := ncbi_aggregate_spec outcome fileCount completed
    (initNcbiSummary projectAcc (pyTruncate (get_project_runs fetchIds fetchRun
      projectAcc) max_runs).length)
  refine ⟨?_, ?_, ?_, ?_⟩
  · rw [ncbi_download_project_data, g2]
    simp [initNcbiSummary, hperm.countP_eq]
  · rw [ncbi_download_project_data, g3]
    simp [initNcbiSummary, hperm.countP_eq]
  · rw [ncbi_download_project_data, g3, g4]
    simp [initNcbiSummary, List.countP_eq_length_filter]
  · rw [ncbi_download_project_data, g4]
    simp only [initNcbiSummary, List.nil_append]
    exact (hperm.filter (fun a => !(outcome a))).map _

/-- Closed instance of `c8_aggregation_order_independent`: two runs, one
succeeding and one failing, aggregated in reversed completion order,
still count one success, one failure, one error entry. -/
theorem c8_aggregation_order_independent_witness :
    (ncbi_download_project_data
      (fun _ => .ok (some ["1", "2"]))
      (fun rid => if rid = "1" then .ok (some ⟨"SRR1"⟩) else .ok (some ⟨"SRR2"⟩))
      (fun a => a = "SRR1") (fun _ => 2) "PRJ1" none
      ["SRR2", "SRR1"]).downloaded_runs = 1
    ∧ (ncbi_download_project_data
      (fun _ => .ok (some ["1", "2"]))
      (fun rid => if rid = "1" then .ok (some ⟨"SRR1"⟩) else .ok (some ⟨"SRR2"⟩))
      (fun a => a = "SRR1") (fun _ => 2) "PRJ1" none
      ["SRR2", "SRR1"]).failed_runs = 1
    ∧ (ncbi_download_project_data
      (fun _ => .ok (some ["1", "2"]))
      (fun rid => if rid = "1" then .ok (some ⟨"SRR1"⟩) else .ok (some ⟨"SRR2"⟩))
      (fun a => a = "SRR1") (fun _ => 2) "PRJ1" none
      ["SRR2", "SRR1"]).errors.length = 1 :=
  ⟨((c8_aggregation_order_independent
      (fun _ => .ok (some ["1", "2"]))
      (fun rid => if rid = "1" then .ok (some ⟨"SRR1"⟩) else .ok (some ⟨"SRR2"⟩))
      (fun a => a = "SRR1") (fun _ => 2) "PRJ1" none
      ["SRR2", "SRR1"] (by decide)).1).trans (by decide),
   ((c8_aggregation_order_independent
      (fun _ => .ok (some ["1", "2"]))
      (fun rid => if rid = "1" then .ok (some ⟨"SRR1"⟩) else .ok (some ⟨"SRR2"⟩))
      (fun a => a = "SRR1") (fun _ => 2) "PRJ1" none
      ["SRR2", "SRR1"] (by decide)).2.1).trans (by decide),
   ((c8_aggregation_order_independent
      (fun _ => .ok (some ["1", "2"]))
      (fun rid => if rid = "1" then .ok (some ⟨"SRR1"⟩) else .ok (some ⟨"SRR2"⟩))
      (fun a => a = "SRR1") (fun _ => 2) "PRJ1" none
      ["SRR2", "SRR1"] (by decide)).2.2.1).trans
    (((c8_aggregation_order_independent
      (fun _ => .ok (some ["1", "2"]))
      (fun rid => if rid = "1" then .ok (some ⟨"SRR1"⟩) else .ok (some ⟨"SRR2"⟩))
      (fun a => a = "SRR1") (fun _ => 2) "PRJ1" none
      ["SRR2", "SRR1"] (by decide)).2.1).trans (by decide))⟩

/-- C9.  The summary's unit counts partition the attempted units:
`total_samples = downloaded_samples + failed_samples` in the ENA path,
and (for any completion order of the submitted futures)
`total_runs = downloaded_runs + failed_runs` in the NCBI path. -/
theorem c9_counts_partition (env : EnaEnv) (projectAcc : String)
    (m : Option Nat) (fs : FS)
    (fetchIds : String → Except String (Option (List String)))
    (fetchRun : String → Except String (Option NcbiRun))
    (outcome : String → Bool) (fileCount : String → Nat)
    (nProject : String) (nMax : Option Nat) (completed : List String)
    (hperm : completed.Perm (ncbi_submitted fetchIds fetchRun nProject nMax)) :
    (ena_download_project_data env projectAcc m fs).1.total_samples
      = (ena_download_project_data env projectAcc m fs).1.downloaded_samples
        + (ena_download_project_data env projectAcc m fs).1.failed_samples
    ∧ (ncbi_download_project_data fetchIds fetchRun outcome fileCount nProject nMax
        completed).total_runs
      = (ncbi_download_project_data fetchIds fetchRun outcome fileCount nProject nMax
          completed).downloaded_runs
        + (ncbi_download_project_data fetchIds fetchRun outcome fileCount nProject nMax
            completed).failed_runs := by
  constructor
  · obtain ⟨h1, h2, h3, h4⟩ := processSample_foldl env
      (pyTruncate (get_project_samples env.fetchSamples projectAcc) m)
      (initEnaSummary projectAcc
        (pyTruncate (get_project_samples env.fetchSamples projectAcc) m).length) fs
    rw [ena_download_project_data, ena_process_samples, h1, h2, h3]
    simp only [initEnaSummary, Nat.zero_add]
    rw [boolCount, sampleOutcomes_length]
  · obtain ⟨g1, g2, g3, g4⟩ := ncbi_aggregate_spec outcome fileCount completed
      (initNcbiSummary nProject (pyTruncate (get_project_runs fetchIds fetchRun
        nProject) nMax).length)
    rw [ncbi_download_project_data, g1, g2, g3]
    simp only [initNcbiSummary, Nat.zero_add]
    rw [countP_split, hperm.length_eq, ncbi_submitted, List.length_map]

/-- Closed instance of `c9_counts_partition` with one succeeding sample
and one no-runs sample (ENA) and one succeeding plus one failing run
(NCBI). -/
theorem c9_counts_partition_witness :
    (ena_download_project_data
      ⟨⟨false⟩, fun _ _ => none, fun _ => .completed 0 "data",
        fun _ => .ok [⟨"S1", none, none, none, []⟩, ⟨"S2", none, none, none, []⟩],
        fun a => if a = "S1" then
          .ok [⟨"RUN1", [⟨"f.fastq", some "fastq", none, none⟩]⟩] else .ok [],
        "fastq", "ftp"⟩
      "PRJ1" none []).1.total_samples
      = (ena_download_project_data
        ⟨⟨false⟩, fun _ _ => none, fun _ => .completed 0 "data",
          fun _ => .ok [⟨"S1", none, none, none, []⟩, ⟨"S2", none, none, none, []⟩],
          fun a => if a = "S1" then
            .ok [⟨"RUN1", [⟨"f.fastq", some "fastq", none, none⟩]⟩] else .ok [],
          "fastq", "ftp"⟩
        "PRJ1" none []).1.downloaded_samples
        + (ena_download_project_data
          ⟨⟨false⟩, fun _ _ => none, fun _ => .completed 0 "data",
            fun _ => .ok [⟨"S1", none, none, none, []⟩, ⟨"S2", none, none, none, []⟩],
            fun a => if a = "S1" then
              .ok [⟨"RUN1", [⟨"f.fastq", some "fastq", none, none⟩]⟩] else .ok [],
            "fastq", "ftp"⟩
          "PRJ1" none []).1.failed_samples
    ∧ (ncbi_download_project_data (fun _ => .ok (some ["1"]))
        (fun _ => .ok (some ⟨"SRR1"⟩)) (fun _ => false) (fun _ => 0) "PRJ1" none
        ["SRR1"]).total_runs
      = (ncbi_download_project_data (fun _ => .ok (some ["1"]))
          (fun _ => .ok (some ⟨"SRR1"⟩)) (fun _ => false) (fun _ => 0) "PRJ1" none
          ["SRR1"]).downloaded_runs
        + (ncbi_download_project_data (fun _ => .ok (some ["1"]))
            (fun _ => .ok (some ⟨"SRR1"⟩)) (fun _ => false) (fun _ => 0) "PRJ1" none
            ["SRR1"]).failed_runs :=
  c9_counts_partition
    ⟨⟨false⟩, fun _ _ => none, fun _ => .completed 0 "data",
      fun _ => .ok [⟨"S1", none, none, none, []⟩, ⟨"S2", none, none, none, []⟩],
      fun a => if a = "S1" then
        .ok [⟨"RUN1", [⟨"f.fastq", some "fastq", none, none⟩]⟩] else .ok [],
      "fastq", "ftp"⟩
    "PRJ1" none [] (fun _ => .ok (some ["1"])) (fun _ => .ok (some ⟨"SRR1"⟩))
    (fun _ => false) (fun _ => 0) "PRJ1" none ["SRR1"] (by decide)

/-- C10.  A `maxUnits` of `0` is treated exactly like an absent limit:
the full resolved unit list is processed, in both paths, rather than an
empty one. -/
theorem c10_zero_limit (env : EnaEnv) (projectAcc : String) (fs : FS)
    (fetchIds : String → Except String (Option (List String)))
    (fetchRun : String → Except String (Option NcbiRun))
    (outcome : String → Bool) (fileCount : String → Nat)
    (nProject : String) (completed : List String) :
    ena_download_project_data env projectAcc (some 0) fs
      = ena_download_project_data env projectAcc none fs
    ∧ (ena_download_project_data env projectAcc (some 0) fs).1.total_samples
      = (get_project_samples env.fetchSamples projectAcc).length
    ∧ ncbi_download_project_data fetchIds fetchRun outcome fileCount nProject
        (some 0) completed
      = ncbi_download_project_data fetchIds fetchRun outcome fileCount nProject
          none completed
    ∧ pyTruncate (get_project_samples env.fetchSamples projectAcc) (some 0)
      = get_project_samples env.fetchSamples projectAcc := by
  refine ⟨?_, ?_, ?_, ?_⟩
  · rw [ena_download_project_data, ena_download_project_data]
    simp [pyTruncate]
  · rw [ena_download_project_data, ena_process_samples]
    rw [(processSample_foldl env _ _ _).1]
    simp [initEnaSummary, pyTruncate]
  · rw [ncbi_download_project_data, ncbi_download_project_data]
    simp [pyTruncate]
  · simp [pyTruncate]

end FragmentFusion
